import Mathlib

/-!
Shallow embedding of the `fbclock` client library from facebook/time
(`src/fbclock/fbclock.c`, `src/fbclock/fbclock.h`).

Modeling conventions:
* C fixed-width unsigned integers are modeled as `ℕ`, signed ones as `ℤ`;
  wherever C wraparound (conversion to `uint64_t`, unsigned overflow) matters
  we reduce explicitly modulo `2 ^ 64` via `u64`.
* C `double` values are modeled as exact rationals `ℚ` (the library only uses
  doubles for the elapsed-seconds / holdover computation).
* Shared memory reads are nondeterministic: a load loop is parameterized by an
  observation schedule `obs` giving, for each attempt, the values the reader
  would see (payload snapshot and CRC word for v1; first sequence load,
  payload snapshot, second sequence load for v2).  `usleep` is a no-op in the
  model.  The PHC ioctl sampler and `clock_gettime` are likewise modeled as
  externally supplied results (`Option` is `none` when the syscall fails).
-/

/-- Error code `FBCLOCK_E_NO_ERROR` from fbclock.h. -/
def FBCLOCK_E_NO_ERROR : ℤ := 0

/-- Error code `FBCLOCK_E_PTP_READ_OFFSET` from fbclock.h. -/
def FBCLOCK_E_PTP_READ_OFFSET : ℤ := -3

/-- Error code `FBCLOCK_E_NO_DATA` from fbclock.h. -/
def FBCLOCK_E_NO_DATA : ℤ := -5

/-- Error code `FBCLOCK_E_WOU_TOO_BIG` from fbclock.h. -/
def FBCLOCK_E_WOU_TOO_BIG : ℤ := -6

/-- Error code `FBCLOCK_E_PHC_IN_THE_PAST` from fbclock.h. -/
def FBCLOCK_E_PHC_IN_THE_PAST : ℤ := -7

/-- Error code `FBCLOCK_E_CRC_MISMATCH` from fbclock.h. -/
def FBCLOCK_E_CRC_MISMATCH : ℤ := -8

/-- `UTC_TAI_OFFSET_NS = (int64_t)(-37e9)` from fbclock.h. -/
def UTC_TAI_OFFSET_NS : ℤ := -37000000000

/-- `SMEAR_STEP_NS = (int64_t)(65e3)` from fbclock.h. -/
def SMEAR_STEP_NS : ℕ := 65000

/-- `NANOSECONDS_IN_SECONDS` from fbclock.c. -/
def NANOSECONDS_IN_SECONDS : ℕ := 1000000000

/-- `SMEAR_DURATION` (seconds) from fbclock.c. -/
def SMEAR_DURATION : ℕ := 62500

/-- `FBCLOCK_MAX_READ_TRIES` from fbclock.c. -/
def FBCLOCK_MAX_READ_TRIES : ℕ := 1000

/-- `FBCLOCK_POW2_16 = (double)(1ULL << 16)` from fbclock.h. -/
def FBCLOCK_POW2_16 : ℚ := 65536

/-- `UINT32_MAX` sentinel used by the library. -/
def UINT32_MAX : ℕ := 4294967295

/-- Time standard selector `FBCLOCK_TAI` from fbclock.h. -/
def FBCLOCK_TAI : ℤ := 0

/-- Time standard selector `FBCLOCK_UTC` from fbclock.h. -/
def FBCLOCK_UTC : ℤ := 1

/-- `2 ^ 64`, the modulus of `uint64_t` arithmetic. -/
def UINT64_MOD : ℕ := 18446744073709551616

/-- The `uint64_t` bit pattern (as a natural number `< 2 ^ 64`) denoted by a
mathematical integer: conversion of C signed/overflowing arithmetic results
into `uint64_t`. -/
def u64 (x : ℤ) : ℕ := (x % (UINT64_MOD : ℤ)).toNat

/-- `fbclock_clockdata` (v1 payload) from fbclock.h. -/
structure fbclock_clockdata where
  ingress_time_ns : ℤ
  error_bound_ns : ℕ
  holdover_multiplier_ns : ℕ
  clock_smearing_start_s : ℕ
  clock_smearing_end_s : ℕ
  utc_offset_pre_s : ℤ
  utc_offset_post_s : ℤ
deriving DecidableEq

/-- `fbclock_clockdata_v2` (v2 payload) from fbclock.h. -/
structure fbclock_clockdata_v2 where
  ingress_time_ns : ℤ
  error_bound_ns : ℕ
  holdover_multiplier_ns : ℕ
  clock_smearing_start_s : ℕ
  utc_offset_pre_s : ℤ
  utc_offset_post_s : ℤ
  clockId : ℕ
  phc_time_ns : ℤ
  sysclock_time_ns : ℤ
  coef_ppb : ℤ
deriving DecidableEq

/-- `fbclock_truetime` from fbclock.h. -/
structure fbclock_truetime where
  earliest_ns : ℕ
  latest_ns : ℕ
deriving DecidableEq

/-- `struct phc_time_res` from fbclock.c: a PHC sample (timestamp and sampling
delay) as produced by `fbclock_read_ptp_offset[_extended]`. -/
structure phc_time_res where
  ts : ℤ
  delay : ℤ
deriving DecidableEq

/-- The zero-initialized `fbclock_clockdata state = {}` of `fbclock_gettime_tz`. -/
def fbclock_clockdata_init : fbclock_clockdata :=
  ⟨0, 0, 0, 0, 0, 0, 0⟩

/-- The zero-initialized `fbclock_clockdata_v2 state = {}` of `fbclock_gettime_tz_v2`. -/
def fbclock_clockdata_v2_init : fbclock_clockdata_v2 :=
  ⟨0, 0, 0, 0, 0, 0, 0, 0, 0, 0⟩

/-- `fbclock_crc64`: the portable fallback `({ a ^ b; })` (XOR) from fbclock.c;
the claims about the loader are agnostic to which platform hash is compiled in,
writer and reader use the same function. -/
def fbclock_crc64 (a b : ℕ) : ℕ := Nat.xor a b

/-- `fbclock_clockdata_crc` from fbclock.c: folds `ingress_time_ns` (as its
`uint64_t` pattern), `error_bound_ns`, `holdover_multiplier_ns`, with initial
state `0xFFFFFFFF` and final XOR `0xFFFFFFFF`. -/
def fbclock_clockdata_crc (value : fbclock_clockdata) : ℕ :=
  let counter := fbclock_crc64 4294967295 (u64 value.ingress_time_ns)
  let counter := fbclock_crc64 counter value.error_bound_ns
  let counter := fbclock_crc64 counter value.holdover_multiplier_ns
  Nat.xor counter 4294967295

/-- The sequence-word updates of `fbclock_clockdata_store_data_v2`: from the
current sequence `seq0`, the writer increments (odd: in progress), copies the
payload, increments again, and skips the value `0` on wraparound.  Returns the
final (published) sequence word. -/
def fbclock_store_data_v2_seq (seq0 : ℕ) : ℕ :=
  let seq1 := (seq0 + 1) % UINT64_MOD
  let seq2 := (seq1 + 1) % UINT64_MOD
  if seq2 = 0 then (seq2 + 2) % UINT64_MOD else seq2

/-- The retry loop of `fbclock_clockdata_load_data` (v1 reader), attempt `i`
with `fuel` attempts remaining; `last` is the current contents of the output
buffer (the last `memcpy`-ed snapshot).  `obs i` is the payload snapshot and
CRC word observed at attempt `i`. -/
def fbclock_load_loop (obs : ℕ → fbclock_clockdata × ℕ) :
    ℕ → ℕ → fbclock_clockdata → ℤ × fbclock_clockdata
  | _, 0, last => (FBCLOCK_E_NO_ERROR, last)
  | i, fuel + 1, _ =>
    let data := (obs i).1
    let crc := (obs i).2
    let our_crc := fbclock_clockdata_crc data
    if our_crc = crc then (FBCLOCK_E_NO_ERROR, data)
    else fbclock_load_loop obs (i + 1) fuel data

/-- `fbclock_clockdata_load_data` from fbclock.c: up to 1000 attempts; on CRC
match returns the snapshot; on exhaustion returns `FBCLOCK_E_NO_ERROR` anyway
(the `FBCLOCK_E_CRC_MISMATCH` return is commented out in the source) with the
last copied payload.  `data0` is the caller's buffer contents on entry. -/
def fbclock_clockdata_load_data (obs : ℕ → fbclock_clockdata × ℕ)
    (data0 : fbclock_clockdata) : ℤ × fbclock_clockdata :=
  fbclock_load_loop obs 0 FBCLOCK_MAX_READ_TRIES data0

/-- The retry loop of `fbclock_clockdata_load_data_v2` (v2 seqlock reader).
`obs i = (seq1, payload, seq2)`: the first sequence load, the payload snapshot,
and the second sequence load at attempt `i`.  A zero first load means
uninitialized (sleep and retry); an odd first load means a write is in
progress (retry); otherwise the snapshot is accepted iff the second load
equals the first. -/
def fbclock_load_loop_v2 (obs : ℕ → ℕ × fbclock_clockdata_v2 × ℕ) :
    ℕ → ℕ → fbclock_clockdata_v2 → ℤ × fbclock_clockdata_v2
  | _, 0, last => (FBCLOCK_E_CRC_MISMATCH, last)
  | i, fuel + 1, last =>
    let seq := (obs i).1
    if seq = 0 then fbclock_load_loop_v2 obs (i + 1) fuel last
    else if seq % 2 = 1 then fbclock_load_loop_v2 obs (i + 1) fuel last
    else
      let data := (obs i).2.1
      if (obs i).2.2 = seq then (FBCLOCK_E_NO_ERROR, data)
      else fbclock_load_loop_v2 obs (i + 1) fuel data

/-- `fbclock_clockdata_load_data_v2` from fbclock.c: up to 1000 attempts; on
exhaustion returns `FBCLOCK_E_CRC_MISMATCH`. -/
def fbclock_clockdata_load_data_v2 (obs : ℕ → ℕ × fbclock_clockdata_v2 × ℕ)
    (data0 : fbclock_clockdata_v2) : ℤ × fbclock_clockdata_v2 :=
  fbclock_load_loop_v2 obs 0 FBCLOCK_MAX_READ_TRIES data0

/-- Truncation toward zero of a rational, the C `(uint64_t)` cast applied to a
nonnegative `double` (for negative values the C cast is undefined behavior;
the model truncates toward zero). -/
def ratTrunc (x : ℚ) : ℤ := if 0 ≤ x then ⌊x⌋ else -⌊-x⌋

/-- `fbclock_window_of_uncertainty` from fbclock.c:
`h = (uint64_t)(holdover_multiplier_ns * seconds); w = error_bound_ns + h`
in `uint64_t` arithmetic (`error_bound_ns` is a `uint64_t` argument, assumed
`< 2 ^ 64`). -/
def fbclock_window_of_uncertainty (seconds : ℚ) (error_bound_ns : ℕ)
    (holdover_multiplier_ns : ℚ) : ℕ :=
  let h : ℕ := u64 (ratTrunc (holdover_multiplier_ns * seconds))
  (error_bound_ns + h) % UINT64_MOD

/-- `fbclock_apply_smear` from fbclock.c.  All five time/offset arguments are
`uint64_t` (naturals `< 2 ^ 64`), the multiplier is a C `int`; the in-window
branch computes `multiplier * ((time - smear_start) / SMEAR_STEP_NS)` in
`uint64_t` arithmetic and subtracts `offset_pre + smear` modulo `2 ^ 64`. -/
def fbclock_apply_smear (time offset_pre_ns offset_post_ns smear_start_ns
    smear_end_ns : ℕ) (multiplier : ℤ) : ℕ :=
  if time > smear_end_ns then u64 ((time : ℤ) - (offset_post_ns : ℤ))
  else if time < smear_start_ns then u64 ((time : ℤ) - (offset_pre_ns : ℤ))
  else if smear_start_ns ≤ time ∧ time ≤ smear_end_ns then
    let smear : ℕ := u64 (multiplier * (((time - smear_start_ns) / SMEAR_STEP_NS : ℕ) : ℤ))
    u64 ((time : ℤ) - (((offset_pre_ns + smear) % UINT64_MOD : ℕ) : ℤ))
  else time

/-- `fbclock_apply_utc_offset` (v1) from fbclock.c.  `phctime_ns` is the
`int64_t` argument (its `uint64_t` reinterpretation is `u64 phctime_ns`). -/
def fbclock_apply_utc_offset (state : fbclock_clockdata) (phctime_ns : ℤ) : ℕ :=
  if state.utc_offset_pre_s = 0 ∧ state.utc_offset_post_s = 0 then
    u64 (phctime_ns + UTC_TAI_OFFSET_NS)
  else
    let multiplier : ℤ := state.utc_offset_post_s - state.utc_offset_pre_s
    let smear_end_ns : ℕ := state.clock_smearing_end_s * NANOSECONDS_IN_SECONDS % UINT64_MOD
    let smear_start_ns : ℕ := state.clock_smearing_start_s * NANOSECONDS_IN_SECONDS % UINT64_MOD
    let offset_post_ns : ℕ := u64 (state.utc_offset_post_s * (NANOSECONDS_IN_SECONDS : ℤ))
    let offset_pre_ns : ℕ := u64 (state.utc_offset_pre_s * (NANOSECONDS_IN_SECONDS : ℤ))
    fbclock_apply_smear (u64 phctime_ns) offset_pre_ns offset_post_ns
      smear_start_ns smear_end_ns multiplier

/-- `fbclock_apply_utc_offset_v2` from fbclock.c: as v1, but the smear window
ends at `clock_smearing_start_s + SMEAR_DURATION` (the v2 payload has no
`clock_smearing_end_s` field). -/
def fbclock_apply_utc_offset_v2 (state : fbclock_clockdata_v2) (phctime_ns : ℤ) : ℕ :=
  if state.utc_offset_pre_s = 0 ∧ state.utc_offset_post_s = 0 then
    u64 (phctime_ns + UTC_TAI_OFFSET_NS)
  else
    let multiplier : ℤ := state.utc_offset_post_s - state.utc_offset_pre_s
    let smear_end_ns : ℕ :=
      (state.clock_smearing_start_s + SMEAR_DURATION) % UINT64_MOD
        * NANOSECONDS_IN_SECONDS % UINT64_MOD
    let smear_start_ns : ℕ := state.clock_smearing_start_s * NANOSECONDS_IN_SECONDS % UINT64_MOD
    let offset_post_ns : ℕ := u64 (state.utc_offset_post_s * (NANOSECONDS_IN_SECONDS : ℤ))
    let offset_pre_ns : ℕ := u64 (state.utc_offset_pre_s * (NANOSECONDS_IN_SECONDS : ℤ))
    fbclock_apply_smear (u64 phctime_ns) offset_pre_ns offset_post_ns
      smear_start_ns smear_end_ns multiplier

/-- The elapsed time `seconds = (double)(phctime_ns - ingress_time_ns) / 1e9`
computed by `fbclock_calculate_time` (v1). -/
def fbclock_seconds (state : fbclock_clockdata) (phctime_ns : ℤ) : ℚ :=
  ((phctime_ns - state.ingress_time_ns : ℤ) : ℚ) / (NANOSECONDS_IN_SECONDS : ℚ)

/-- The interval center of `fbclock_calculate_time` (v1) as a `uint64_t`
pattern: the PHC time, UTC-adjusted when `time_standard = FBCLOCK_UTC`. -/
def fbclock_center (state : fbclock_clockdata) (phctime_ns : ℤ)
    (time_standard : ℤ) : ℕ :=
  if time_standard = FBCLOCK_UTC then fbclock_apply_utc_offset state phctime_ns
  else u64 phctime_ns

/-- `fbclock_calculate_time` from fbclock.c.  The out-parameter `truetime` is
threaded through: on the error path it is returned unmodified. -/
def fbclock_calculate_time (error_bound_ns : ℕ) (h_value_ns : ℚ)
    (state : fbclock_clockdata) (phctime_ns : ℤ)
    (truetime : fbclock_truetime) (time_standard : ℤ) : ℤ × fbclock_truetime :=
  if state.ingress_time_ns > phctime_ns then
    (FBCLOCK_E_PHC_IN_THE_PAST, truetime)
  else
    let seconds : ℚ := fbclock_seconds state phctime_ns
    let center : ℕ := fbclock_center state phctime_ns time_standard
    let wou_ns : ℕ := fbclock_window_of_uncertainty seconds error_bound_ns h_value_ns
    (FBCLOCK_E_NO_ERROR,
      ⟨u64 ((center : ℤ) - (wou_ns : ℤ)), u64 ((center : ℤ) + (wou_ns : ℤ))⟩)

/-- The elapsed time computed by `fbclock_calculate_time_v2` (from the stored
PHC/ingress pair, before extrapolation). -/
def fbclock_seconds_v2 (state : fbclock_clockdata_v2) : ℚ :=
  ((state.phc_time_ns - state.ingress_time_ns : ℤ) : ℚ) / (NANOSECONDS_IN_SECONDS : ℚ)

/-- The PHC-time extrapolation of `fbclock_calculate_time_v2`:
`phc_time_ns += diff_ns + diff_ns * coef_ppb / NANOSECONDS_IN_SECONDS`.
In C `NANOSECONDS_IN_SECONDS` is `unsigned long long`, so the product
`diff_ns * coef_ppb` is converted to `uint64_t` and the division is unsigned;
the sum is `uint64_t` arithmetic reinterpreted into the `int64_t`
`phc_time_ns`.  Result as a `uint64_t` pattern. -/
def fbclock_extrapolated_phc (state : fbclock_clockdata_v2)
    (sysclock_time_now_ns : ℤ) : ℕ :=
  let diff_ns : ℤ := sysclock_time_now_ns - state.sysclock_time_ns
  let q : ℕ := u64 (diff_ns * state.coef_ppb) / NANOSECONDS_IN_SECONDS
  u64 (state.phc_time_ns + ((u64 diff_ns + q : ℕ) : ℤ))

/-- The interval center of `fbclock_calculate_time_v2` as a `uint64_t`
pattern: the extrapolated PHC time, UTC-adjusted when requested. -/
def fbclock_center_v2 (state : fbclock_clockdata_v2)
    (sysclock_time_now_ns : ℤ) (time_standard : ℤ) : ℕ :=
  let e : ℕ := fbclock_extrapolated_phc state sysclock_time_now_ns
  if time_standard = FBCLOCK_UTC then fbclock_apply_utc_offset_v2 state (e : ℤ)
  else e

/-- `fbclock_calculate_time_v2` from fbclock.c.  The out-parameter `truetime`
is threaded through: on the error path it is returned unmodified. -/
def fbclock_calculate_time_v2 (error_bound_ns : ℕ) (h_value_ns : ℚ)
    (state : fbclock_clockdata_v2) (sysclock_time_now_ns : ℤ)
    (truetime : fbclock_truetime) (time_standard : ℤ) : ℤ × fbclock_truetime :=
  if state.ingress_time_ns > state.phc_time_ns then
    (FBCLOCK_E_PHC_IN_THE_PAST, truetime)
  else
    let seconds : ℚ := fbclock_seconds_v2 state
    let center : ℕ := fbclock_center_v2 state sysclock_time_now_ns time_standard
    let wou_ns : ℕ := fbclock_window_of_uncertainty seconds error_bound_ns h_value_ns
    (FBCLOCK_E_NO_ERROR,
      ⟨u64 ((center : ℤ) - (wou_ns : ℤ)), u64 ((center : ℤ) + (wou_ns : ℤ))⟩)

/-- `fbclock_gettime_tz` (v1 path) from fbclock.c.  Nondeterministic inputs
are explicit: `obs` is the shared-memory observation schedule, `res` the PHC
sampler outcome (`none` when `lib->gettime` fails), `min_phc_delay` the
handle's stored minimum on entry, `truetime` the caller's buffer.  Returns
(error code, truetime buffer, updated `min_phc_delay`). -/
def fbclock_gettime_tz (obs : ℕ → fbclock_clockdata × ℕ)
    (res : Option phc_time_res) (min_phc_delay : ℤ)
    (truetime : fbclock_truetime) (time_standard : ℤ) :
    ℤ × fbclock_truetime × ℤ :=
  let r := fbclock_clockdata_load_data obs fbclock_clockdata_init
  let rcode := r.1
  let state := r.2
  if rcode ≠ FBCLOCK_E_NO_ERROR then (rcode, truetime, min_phc_delay)
  else if state.error_bound_ns = 0 ∨ state.ingress_time_ns = 0 then
    (FBCLOCK_E_NO_DATA, truetime, min_phc_delay)
  else if state.error_bound_ns = UINT32_MAX ∨
      state.holdover_multiplier_ns = UINT32_MAX then
    (FBCLOCK_E_WOU_TOO_BIG, truetime, min_phc_delay)
  else
    match res with
    | none => (FBCLOCK_E_PTP_READ_OFFSET, truetime, min_phc_delay)
    | some r =>
      let min_phc_delay : ℤ :=
        if r.delay < min_phc_delay then r.delay else min_phc_delay
      let error_bound : ℕ := u64 ((state.error_bound_ns : ℤ) + min_phc_delay)
      let h_value : ℚ := (state.holdover_multiplier_ns : ℚ) / FBCLOCK_POW2_16
      let c := fbclock_calculate_time error_bound h_value state r.ts truetime time_standard
      (c.1, c.2, min_phc_delay)

/-- `fbclock_gettime_tz_v2` (v2 path) from fbclock.c.  `sysclock_now` is the
outcome of `clock_gettime(state.clockId, ...)` converted to nanoseconds
(`none` when the call fails).  Note: `min_phc_delay` is not consulted on this
path.  Returns (error code, truetime buffer). -/
def fbclock_gettime_tz_v2 (obs : ℕ → ℕ × fbclock_clockdata_v2 × ℕ)
    (sysclock_now : Option ℤ) (truetime : fbclock_truetime)
    (time_standard : ℤ) : ℤ × fbclock_truetime :=
  let r := fbclock_clockdata_load_data_v2 obs fbclock_clockdata_v2_init
  let rcode := r.1
  let state := r.2
  if rcode ≠ FBCLOCK_E_NO_ERROR then (rcode, truetime)
  else if state.error_bound_ns = 0 ∨ state.ingress_time_ns = 0 then
    (FBCLOCK_E_NO_DATA, truetime)
  else if state.phc_time_ns = 0 ∨ state.sysclock_time_ns = 0 then
    (FBCLOCK_E_NO_DATA, truetime)
  else if state.error_bound_ns = UINT32_MAX ∨
      state.holdover_multiplier_ns = UINT32_MAX then
    (FBCLOCK_E_WOU_TOO_BIG, truetime)
  else
    let error_bound : ℕ := state.error_bound_ns
    let h_value : ℚ := (state.holdover_multiplier_ns : ℚ) / FBCLOCK_POW2_16
    match sysclock_now with
    | none => (FBCLOCK_E_PTP_READ_OFFSET, truetime)
    | some sysclock_time_now_ns =>
      fbclock_calculate_time_v2 error_bound h_value state
        sysclock_time_now_ns truetime time_standard

/-! ### Arithmetic helper lemmas about the `uint64_t` model -/

lemma u64_lt (x : ℤ) : u64 x < UINT64_MOD := by
  have hM : (0 : ℤ) < (UINT64_MOD : ℤ) := by norm_num [UINT64_MOD]
  have h1 : x % (UINT64_MOD : ℤ) < (UINT64_MOD : ℤ) := Int.emod_lt_of_pos x hM
  have h0 : 0 ≤ x % (UINT64_MOD : ℤ) := Int.emod_nonneg x (ne_of_gt hM)
  unfold u64
  omega

lemma u64_small {x : ℤ} (h0 : 0 ≤ x) (h1 : x < (UINT64_MOD : ℤ)) :
    u64 x = x.toNat := by
  unfold u64
  rw [Int.emod_eq_of_lt h0 h1]

lemma u64_cast (x : ℤ) : ((u64 x : ℕ) : ℤ) = x % (UINT64_MOD : ℤ) := by
  unfold u64
  have hM : (0 : ℤ) < (UINT64_MOD : ℤ) := by norm_num [UINT64_MOD]
  exact Int.toNat_of_nonneg (Int.emod_nonneg x (ne_of_gt hM))

/-! ### Claims about the pure time arithmetic (C3, C7, C8, C10) -/

/-- C3: `fbclock_apply_smear` computes `t - offset_pre` before the window,
`t - offset_post` after it, and `t - (offset_pre + multiplier * ⌊(t - smear_start) / 65000⌋)`
inside it (`uint64_t` quantities, so stated under the no-wraparound bounds
that make the subtractions meaningful), and maps the 2017 positive-leap
midpoint `1483261336000000000` to `1483261299500000000`. -/
theorem fbclock_C3 :
    (∀ (t p q s e : ℕ) (m : ℤ), t < UINT64_MOD → s ≤ e →
      ((t < s → p ≤ t → fbclock_apply_smear t p q s e m = t - p) ∧
       (e < t → q ≤ t → fbclock_apply_smear t p q s e m = t - q) ∧
       (s ≤ t → t ≤ e →
        0 ≤ (t : ℤ) - ((p : ℤ) + m * (((t - s) / SMEAR_STEP_NS : ℕ) : ℤ)) →
        (t : ℤ) - ((p : ℤ) + m * (((t - s) / SMEAR_STEP_NS : ℕ) : ℤ)) < (UINT64_MOD : ℕ) →
        fbclock_apply_smear t p q s e m =
          ((t : ℤ) - ((p : ℤ) + m * (((t - s) / SMEAR_STEP_NS : ℕ) : ℤ))).toNat))) ∧
    fbclock_apply_smear 1483261336000000000 36000000000 37000000000
      1483228836000000000 1483293836000000000 1 = 1483261299500000000 := by
  constructor
  · intro t p q s e m ht hse
    refine ⟨?_, ?_, ?_⟩
    · intro h1 h2
      unfold fbclock_apply_smear
      rw [if_neg (by omega), if_pos h1]
      simp only [u64, UINT64_MOD] at *
      omega
    · intro h1 h2
      unfold fbclock_apply_smear
      rw [if_pos h1]
      simp only [u64, UINT64_MOD] at *
      omega
    · intro h1 h2 h3 h4
      unfold fbclock_apply_smear
      rw [if_neg (by omega), if_neg (by omega), if_pos (And.intro h1 h2)]
      simp only [u64, UINT64_MOD, SMEAR_STEP_NS] at h3 h4 ⊢
      generalize m * (((t - s) / 65000 : ℕ) : ℤ) = M at h3 h4 ⊢
      omega
  · decide

/-- Witness for C3: a point strictly before the smear window is shifted back by
exactly `offset_pre`. -/
theorem fbclock_C3_witness :
    fbclock_apply_smear 100 5 7 200 300 1 = 95 := by
  have h := (fbclock_C3.1 100 5 7 200 300 1 (by norm_num [UINT64_MOD])
    (by norm_num)).1 (by norm_num) (by norm_num)
  simpa using h

/-- C7: `fbclock_window_of_uncertainty seconds eb h = eb + ⌊h * seconds⌋`
(holdover term truncated toward zero, which for nonnegative inputs is the
floor), whenever the result fits in `uint64_t`; in particular
`wou 0 172 50.5 = 172` and `wou 10 172 50.5 = 677`. -/
theorem fbclock_C7 :
    (∀ (seconds holdover : ℚ) (eb : ℕ), 0 ≤ seconds → 0 ≤ holdover →
      eb + (⌊holdover * seconds⌋).toNat < UINT64_MOD →
      fbclock_window_of_uncertainty seconds eb holdover =
        eb + (⌊holdover * seconds⌋).toNat) ∧
    fbclock_window_of_uncertainty 0 172 (101 / 2) = 172 ∧
    fbclock_window_of_uncertainty 10 172 (101 / 2) = 677 := by
  have key : ∀ (seconds holdover : ℚ) (eb : ℕ), 0 ≤ seconds → 0 ≤ holdover →
      eb + (⌊holdover * seconds⌋).toNat < UINT64_MOD →
      fbclock_window_of_uncertainty seconds eb holdover =
        eb + (⌊holdover * seconds⌋).toNat := by
    intro s h eb hs hh hlt
    have hm : (0 : ℚ) ≤ h * s := mul_nonneg hh hs
    have h0 : (0 : ℤ) ≤ ⌊h * s⌋ := Int.floor_nonneg.mpr hm
    have h1 : ⌊h * s⌋ < (UINT64_MOD : ℤ) := by omega
    unfold fbclock_window_of_uncertainty ratTrunc
    rw [if_pos hm, u64_small h0 h1, Nat.mod_eq_of_lt hlt]
  refine ⟨key, ?_, ?_⟩
  · have h := key 0 (101 / 2) 172 (by norm_num) (by norm_num)
      (by norm_num [UINT64_MOD, Int.toNat_ofNat])
    rw [h]
    norm_num [Int.toNat_ofNat]
  · have h := key 10 (101 / 2) 172 (by norm_num) (by norm_num)
      (by norm_num [UINT64_MOD]
          ; decide)
    rw [h]
    norm_num [Int.toNat_ofNat]
    decide

/-- Witness for C7: the general statement instantiated at
`seconds = 10, eb = 172, h = 50.5`. -/
theorem fbclock_C7_witness :
    fbclock_window_of_uncertainty 10 172 (101 / 2) =
      172 + (⌊(101 / 2 : ℚ) * 10⌋).toNat :=
  fbclock_C7.1 10 (101 / 2) 172 (by norm_num) (by norm_num)
    (by norm_num [UINT64_MOD]
        ; decide)

/-- C8: with no tzdata (`utc_offset_pre_s = utc_offset_post_s = 0`) both UTC
converters add the fixed `-37 s` offset (stated with the bounds making the
`uint64_t` result equal the mathematical difference), and with tzdata present
the v2 converter smears over the window ending at
`clock_smearing_start_s + 62500` seconds. -/
theorem fbclock_C8 :
    (∀ (state : fbclock_clockdata) (t : ℤ),
      state.utc_offset_pre_s = 0 → state.utc_offset_post_s = 0 →
      37000000000 ≤ t → t < (UINT64_MOD : ℕ) + 37000000000 →
      fbclock_apply_utc_offset state t = (t - 37000000000).toNat) ∧
    (∀ (state : fbclock_clockdata_v2) (t : ℤ),
      state.utc_offset_pre_s = 0 → state.utc_offset_post_s = 0 →
      37000000000 ≤ t → t < (UINT64_MOD : ℕ) + 37000000000 →
      fbclock_apply_utc_offset_v2 state t = (t - 37000000000).toNat) ∧
    (∀ (state : fbclock_clockdata_v2) (t : ℤ),
      ¬(state.utc_offset_pre_s = 0 ∧ state.utc_offset_post_s = 0) →
      (state.clock_smearing_start_s + SMEAR_DURATION) * NANOSECONDS_IN_SECONDS < UINT64_MOD →
      fbclock_apply_utc_offset_v2 state t =
        fbclock_apply_smear (u64 t)
          (u64 (state.utc_offset_pre_s * (NANOSECONDS_IN_SECONDS : ℤ)))
          (u64 (state.utc_offset_post_s * (NANOSECONDS_IN_SECONDS : ℤ)))
          (state.clock_smearing_start_s * NANOSECONDS_IN_SECONDS)
          ((state.clock_smearing_start_s + SMEAR_DURATION) * NANOSECONDS_IN_SECONDS)
          (state.utc_offset_post_s - state.utc_offset_pre_s)) := by
  refine ⟨?_, ?_, ?_⟩
  · intro state t h1 h2 h3 h4
    unfold fbclock_apply_utc_offset
    rw [if_pos (And.intro h1 h2)]
    simp only [u64, UINT64_MOD, UTC_TAI_OFFSET_NS] at *
    omega
  · intro state t h1 h2 h3 h4
    unfold fbclock_apply_utc_offset_v2
    rw [if_pos (And.intro h1 h2)]
    simp only [u64, UINT64_MOD, UTC_TAI_OFFSET_NS] at *
    omega
  · intro state t hne hbound
    have hnano : 1 ≤ NANOSECONDS_IN_SECONDS := by norm_num [NANOSECONDS_IN_SECONDS]
    have hend : (state.clock_smearing_start_s + SMEAR_DURATION) < UINT64_MOD := by
      calc state.clock_smearing_start_s + SMEAR_DURATION
          ≤ (state.clock_smearing_start_s + SMEAR_DURATION) * NANOSECONDS_IN_SECONDS :=
            Nat.le_mul_of_pos_right _ (by omega)
        _ < UINT64_MOD := hbound
    have hstart : state.clock_smearing_start_s * NANOSECONDS_IN_SECONDS < UINT64_MOD := by
      have : state.clock_smearing_start_s * NANOSECONDS_IN_SECONDS
          ≤ (state.clock_smearing_start_s + SMEAR_DURATION) * NANOSECONDS_IN_SECONDS :=
        Nat.mul_le_mul_right _ (by omega)
      omega
    unfold fbclock_apply_utc_offset_v2
    rw [if_neg hne]
    rw [Nat.mod_eq_of_lt hend, Nat.mod_eq_of_lt hbound, Nat.mod_eq_of_lt hstart]

/-- Witness for C8: the v1 fallback at a concrete instant. -/
theorem fbclock_C8_witness :
    fbclock_apply_utc_offset fbclock_clockdata_init 37000000001 = 1 := by
  have h := fbclock_C8.1 fbclock_clockdata_init 37000000001 rfl rfl
    (by norm_num) (by norm_num [UINT64_MOD])
  simpa using h

/-- C10: when either `fbclock_calculate_time` variant reports
`FBCLOCK_E_PHC_IN_THE_PAST`, the caller's truetime buffer is returned
unmodified. -/
theorem fbclock_C10 :
    (∀ (eb : ℕ) (h : ℚ) (state : fbclock_clockdata) (phc : ℤ)
        (tt : fbclock_truetime) (std : ℤ),
      (fbclock_calculate_time eb h state phc tt std).1 = FBCLOCK_E_PHC_IN_THE_PAST →
      (fbclock_calculate_time eb h state phc tt std).2 = tt) ∧
    (∀ (eb : ℕ) (h : ℚ) (state : fbclock_clockdata_v2) (sysnow : ℤ)
        (tt : fbclock_truetime) (std : ℤ),
      (fbclock_calculate_time_v2 eb h state sysnow tt std).1 = FBCLOCK_E_PHC_IN_THE_PAST →
      (fbclock_calculate_time_v2 eb h state sysnow tt std).2 = tt) := by
  constructor
  · intro eb h state phc tt std hcode
    unfold fbclock_calculate_time at hcode ⊢
    by_cases hc : state.ingress_time_ns > phc
    · rw [if_pos hc]
    · rw [if_neg hc] at hcode
      exact absurd hcode (by norm_num [FBCLOCK_E_NO_ERROR, FBCLOCK_E_PHC_IN_THE_PAST])
  · intro eb h state sysnow tt std hcode
    unfold fbclock_calculate_time_v2 at hcode ⊢
    by_cases hc : state.ingress_time_ns > state.phc_time_ns
    · rw [if_pos hc]
    · rw [if_neg hc] at hcode
      exact absurd hcode (by norm_num [FBCLOCK_E_NO_ERROR, FBCLOCK_E_PHC_IN_THE_PAST])

/-- Witness for C10: a reversed v1 input leaves the buffer `⟨9, 9⟩` intact. -/
theorem fbclock_C10_witness :
    (fbclock_calculate_time 1 0 ⟨5, 1, 1, 0, 0, 0, 0⟩ 3 ⟨9, 9⟩ FBCLOCK_TAI).2 = ⟨9, 9⟩ :=
  fbclock_C10.1 1 0 ⟨5, 1, 1, 0, 0, 0, 0⟩ 3 ⟨9, 9⟩ FBCLOCK_TAI (by decide)

/-! ### Helper lemmas about the shared-memory load loops -/

lemma fbclock_load_loop_code (obs : ℕ → fbclock_clockdata × ℕ) :
    ∀ (fuel i : ℕ) (last : fbclock_clockdata),
      (fbclock_load_loop obs i fuel last).1 = FBCLOCK_E_NO_ERROR
  | 0, _, _ => rfl
  | fuel + 1, i, _ => by
    simp only [fbclock_load_loop]
    split
    · rfl
    · exact fbclock_load_loop_code obs fuel (i + 1) ((obs i).1)

lemma fbclock_load_loop_match (obs : ℕ → fbclock_clockdata × ℕ) :
    ∀ (fuel i : ℕ) (last : fbclock_clockdata) (j : ℕ), i ≤ j → j < i + fuel →
      (∀ k, i ≤ k → k < j → fbclock_clockdata_crc (obs k).1 ≠ (obs k).2) →
      fbclock_clockdata_crc (obs j).1 = (obs j).2 →
      fbclock_load_loop obs i fuel last = (FBCLOCK_E_NO_ERROR, (obs j).1)
  | 0, _, _, _, _, hlt, _, _ => absurd hlt (by omega)
  | fuel + 1, i, last, j, hij, hlt, hno, hj => by
    simp only [fbclock_load_loop]
    by_cases hi : fbclock_clockdata_crc (obs i).1 = (obs i).2
    · have hij2 : i = j := by
        by_contra hne
        exact hno i le_rfl (by omega) hi
      subst hij2
      rw [if_pos hi]
    · have hne : i ≠ j := fun he => hi (by rw [he]; exact hj)
      rw [if_neg hi]
      exact fbclock_load_loop_match obs fuel (i + 1) ((obs i).1) j (by omega)
        (by omega) (fun k hk1 hk2 => hno k (by omega) hk2) hj

lemma fbclock_load_loop_nomatch (obs : ℕ → fbclock_clockdata × ℕ) :
    ∀ (fuel i : ℕ) (last : fbclock_clockdata), 0 < fuel →
      (∀ k, i ≤ k → k < i + fuel → fbclock_clockdata_crc (obs k).1 ≠ (obs k).2) →
      fbclock_load_loop obs i fuel last = (FBCLOCK_E_NO_ERROR, (obs (i + fuel - 1)).1)
  | 0, _, _, h, _ => absurd h (by omega)
  | fuel + 1, i, last, _, hno => by
    simp only [fbclock_load_loop]
    rw [if_neg (hno i le_rfl (by omega))]
    cases fuel with
    | zero =>
      simp only [fbclock_load_loop]
      norm_num
    | succ f =>
      have h := fbclock_load_loop_nomatch obs (f + 1) (i + 1) ((obs i).1) (by omega)
        (fun k hk1 hk2 => hno k (by omega) (by omega))
      rw [h]
      have he : i + 1 + (f + 1) - 1 = i + (f + 1 + 1) - 1 := by omega
      rw [he]

lemma fbclock_load_loop_v2_match (obs : ℕ → ℕ × fbclock_clockdata_v2 × ℕ) :
    ∀ (fuel i : ℕ) (last : fbclock_clockdata_v2) (j : ℕ), i ≤ j → j < i + fuel →
      (∀ k, i ≤ k → k < j →
        ¬((obs k).1 ≠ 0 ∧ (obs k).1 % 2 = 0 ∧ (obs k).2.2 = (obs k).1)) →
      (obs j).1 ≠ 0 → (obs j).1 % 2 = 0 → (obs j).2.2 = (obs j).1 →
      fbclock_load_loop_v2 obs i fuel last = (FBCLOCK_E_NO_ERROR, (obs j).2.1)
  | 0, _, _, _, _, hlt, _, _, _, _ => absurd hlt (by omega)
  | fuel + 1, i, last, j, hij, hlt, hno, hj0, hje, hjs => by
    simp only [fbclock_load_loop_v2]
    by_cases h0 : (obs i).1 = 0
    · have hne : i ≠ j := fun he => hj0 (by rw [← he]; exact h0)
      rw [if_pos h0]
      exact fbclock_load_loop_v2_match obs fuel (i + 1) last j (by omega) (by omega)
        (fun k hk1 hk2 => hno k (by omega) hk2) hj0 hje hjs
    · rw [if_neg h0]
      by_cases h1 : (obs i).1 % 2 = 1
      · have hne : i ≠ j := by
          intro he
          rw [he] at h1
          omega
        rw [if_pos h1]
        exact fbclock_load_loop_v2_match obs fuel (i + 1) last j (by omega) (by omega)
          (fun k hk1 hk2 => hno k (by omega) hk2) hj0 hje hjs
      · rw [if_neg h1]
        by_cases h2 : (obs i).2.2 = (obs i).1
        · have heq : i = j := by
            by_contra hne
            exact hno i le_rfl (by omega) ⟨h0, by omega, h2⟩
          subst heq
          rw [if_pos h2]
        · have hne : i ≠ j := fun he => h2 (by rw [he]; exact hjs)
          rw [if_neg h2]
          exact fbclock_load_loop_v2_match obs fuel (i + 1) ((obs i).2.1) j (by omega)
            (by omega) (fun k hk1 hk2 => hno k (by omega) hk2) hj0 hje hjs

lemma fbclock_load_loop_v2_nomatch (obs : ℕ → ℕ × fbclock_clockdata_v2 × ℕ) :
    ∀ (fuel i : ℕ) (last : fbclock_clockdata_v2),
      (∀ k, i ≤ k → k < i + fuel →
        ¬((obs k).1 ≠ 0 ∧ (obs k).1 % 2 = 0 ∧ (obs k).2.2 = (obs k).1)) →
      (fbclock_load_loop_v2 obs i fuel last).1 = FBCLOCK_E_CRC_MISMATCH
  | 0, _, _, _ => rfl
  | fuel + 1, i, last, hno => by
    simp only [fbclock_load_loop_v2]
    by_cases h0 : (obs i).1 = 0
    · rw [if_pos h0]
      exact fbclock_load_loop_v2_nomatch obs fuel (i + 1) last
        (fun k hk1 hk2 => hno k (by omega) (by omega))
    · rw [if_neg h0]
      by_cases h1 : (obs i).1 % 2 = 1
      · rw [if_pos h1]
        exact fbclock_load_loop_v2_nomatch obs fuel (i + 1) last
          (fun k hk1 hk2 => hno k (by omega) (by omega))
      · have h2 : (obs i).2.2 ≠ (obs i).1 := by
          intro he
          exact hno i le_rfl (by omega) ⟨h0, by omega, he⟩
        rw [if_neg h1, if_neg h2]
        exact fbclock_load_loop_v2_nomatch obs fuel (i + 1) ((obs i).2.1)
          (fun k hk1 hk2 => hno k (by omega) (by omega))

/-! ### Claims about the shared-memory exchange (C5, C6) -/

/-- C5: the v1 loader accepts a snapshot iff the CRC it computes over the
copied payload equals the loaded CRC word (returning the first matching
snapshot attempt), retries up to 1000 times, and on exhausting all 1000
mismatching attempts still returns `FBCLOCK_E_NO_ERROR` with the last copied
payload — never `FBCLOCK_E_CRC_MISMATCH`. -/
theorem fbclock_C5 :
    ∀ (obs : ℕ → fbclock_clockdata × ℕ) (data0 : fbclock_clockdata),
      (fbclock_clockdata_load_data obs data0).1 = FBCLOCK_E_NO_ERROR ∧
      (∀ j, j < FBCLOCK_MAX_READ_TRIES →
        (∀ k, k < j → fbclock_clockdata_crc (obs k).1 ≠ (obs k).2) →
        fbclock_clockdata_crc (obs j).1 = (obs j).2 →
        (fbclock_clockdata_load_data obs data0).2 = (obs j).1) ∧
      ((∀ k, k < FBCLOCK_MAX_READ_TRIES →
          fbclock_clockdata_crc (obs k).1 ≠ (obs k).2) →
        (fbclock_clockdata_load_data obs data0).2 = (obs 999).1) := by
  intro obs data0
  refine ⟨fbclock_load_loop_code obs FBCLOCK_MAX_READ_TRIES 0 data0, ?_, ?_⟩
  · intro j hj hno hj2
    unfold fbclock_clockdata_load_data
    rw [fbclock_load_loop_match obs FBCLOCK_MAX_READ_TRIES 0 data0 j (by omega)
      (by omega) (fun k _ hk => hno k hk) hj2]
  · intro hall
    unfold fbclock_clockdata_load_data
    rw [fbclock_load_loop_nomatch obs FBCLOCK_MAX_READ_TRIES 0 data0
      (by norm_num [FBCLOCK_MAX_READ_TRIES]) (fun k _ hk => hall k (by omega))]
    norm_num [FBCLOCK_MAX_READ_TRIES]

/-- A constant observation schedule whose CRC word always matches: used to
witness C5. -/
def fbclock_C5_obs : ℕ → fbclock_clockdata × ℕ :=
  fun _ => (⟨7, 14, 21, 0, 0, 0, 0⟩, fbclock_clockdata_crc ⟨7, 14, 21, 0, 0, 0, 0⟩)

/-- Witness for C5: a matching first snapshot is accepted as-is with
`FBCLOCK_E_NO_ERROR`. -/
theorem fbclock_C5_witness :
    (fbclock_clockdata_load_data fbclock_C5_obs fbclock_clockdata_init).1 =
      FBCLOCK_E_NO_ERROR ∧
    (fbclock_clockdata_load_data fbclock_C5_obs fbclock_clockdata_init).2 =
      ⟨7, 14, 21, 0, 0, 0, 0⟩ :=
  ⟨(fbclock_C5 fbclock_C5_obs fbclock_clockdata_init).1,
   (fbclock_C5 fbclock_C5_obs fbclock_clockdata_init).2.1 0
     (by norm_num [FBCLOCK_MAX_READ_TRIES]) (by intro k hk; omega) rfl⟩

/-- C6: the v2 seqlock loader skips attempts whose first sequence load is zero
(uninitialized) or odd (write in progress), accepts a snapshot iff the
re-loaded sequence equals the first load (returning the first such attempt's
payload), returns `FBCLOCK_E_CRC_MISMATCH` after 1000 unsuccessful attempts,
and the v2 writer never publishes a completed sequence word of zero (it skips
zero on wraparound). -/
theorem fbclock_C6 :
    (∀ (obs : ℕ → ℕ × fbclock_clockdata_v2 × ℕ) (data0 : fbclock_clockdata_v2),
      (∀ j, j < FBCLOCK_MAX_READ_TRIES →
        (∀ k, k < j →
          ¬((obs k).1 ≠ 0 ∧ (obs k).1 % 2 = 0 ∧ (obs k).2.2 = (obs k).1)) →
        (obs j).1 ≠ 0 → (obs j).1 % 2 = 0 → (obs j).2.2 = (obs j).1 →
        fbclock_clockdata_load_data_v2 obs data0 =
          (FBCLOCK_E_NO_ERROR, (obs j).2.1)) ∧
      ((∀ k, k < FBCLOCK_MAX_READ_TRIES →
          ¬((obs k).1 ≠ 0 ∧ (obs k).1 % 2 = 0 ∧ (obs k).2.2 = (obs k).1)) →
        (fbclock_clockdata_load_data_v2 obs data0).1 = FBCLOCK_E_CRC_MISMATCH)) ∧
    (∀ seq0 : ℕ, fbclock_store_data_v2_seq seq0 ≠ 0) := by
  constructor
  · intro obs data0
    constructor
    · intro j hj hno hj0 hje hjs
      unfold fbclock_clockdata_load_data_v2
      exact fbclock_load_loop_v2_match obs FBCLOCK_MAX_READ_TRIES 0 data0 j
        (by omega) (by omega) (fun k _ hk => hno k hk) hj0 hje hjs
    · intro hall
      unfold fbclock_clockdata_load_data_v2
      exact fbclock_load_loop_v2_nomatch obs FBCLOCK_MAX_READ_TRIES 0 data0
        (fun k _ hk => hall k (by omega))
  · intro seq0
    simp only [fbclock_store_data_v2_seq]
    split
    · next h =>
      rw [h]
      norm_num [UINT64_MOD]
    · next h => exact h

/-- A constant observation schedule with an even, stable sequence word: used
to witness C6. -/
def fbclock_C6_obs : ℕ → ℕ × fbclock_clockdata_v2 × ℕ :=
  fun _ => (2, ⟨3, 6, 9, 0, 0, 0, 0, 5, 5, 0⟩, 2)

/-- Witness for C6: a coherent first snapshot is accepted. -/
theorem fbclock_C6_witness :
    fbclock_clockdata_load_data_v2 fbclock_C6_obs fbclock_clockdata_v2_init =
      (FBCLOCK_E_NO_ERROR, ⟨3, 6, 9, 0, 0, 0, 0, 5, 5, 0⟩) :=
  (fbclock_C6.1 fbclock_C6_obs fbclock_clockdata_v2_init).1 0
    (by norm_num [FBCLOCK_MAX_READ_TRIES]) (by intro k hk; omega)
    (by decide) (by decide) rfl

/-! ### Claims about gettime validation (C4, C9) -/

/-- C4: on the v1 path, `gettime` returns `FBCLOCK_E_NO_DATA` when the loaded
payload's `error_bound_ns` or `ingress_time_ns` is zero, `FBCLOCK_E_WOU_TOO_BIG`
when (past that check) `error_bound_ns` or `holdover_multiplier_ns` equals
`UINT32_MAX`, and `FBCLOCK_E_PHC_IN_THE_PAST` when (past both checks, with a
successful PHC sample) the sample precedes the published `ingress_time_ns`;
in each case the caller's truetime buffer is untouched. -/
theorem fbclock_C4 :
    ∀ (obs : ℕ → fbclock_clockdata × ℕ) (res : Option phc_time_res)
      (min0 : ℤ) (tt0 : fbclock_truetime) (std : ℤ),
      ((fbclock_clockdata_load_data obs fbclock_clockdata_init).2.error_bound_ns = 0 ∨
        (fbclock_clockdata_load_data obs fbclock_clockdata_init).2.ingress_time_ns = 0 →
        fbclock_gettime_tz obs res min0 tt0 std = (FBCLOCK_E_NO_DATA, tt0, min0)) ∧
      (¬((fbclock_clockdata_load_data obs fbclock_clockdata_init).2.error_bound_ns = 0 ∨
          (fbclock_clockdata_load_data obs fbclock_clockdata_init).2.ingress_time_ns = 0) →
        ((fbclock_clockdata_load_data obs fbclock_clockdata_init).2.error_bound_ns = UINT32_MAX ∨
          (fbclock_clockdata_load_data obs fbclock_clockdata_init).2.holdover_multiplier_ns = UINT32_MAX) →
        fbclock_gettime_tz obs res min0 tt0 std = (FBCLOCK_E_WOU_TOO_BIG, tt0, min0)) ∧
      (∀ r : phc_time_res, res = some r →
        ¬((fbclock_clockdata_load_data obs fbclock_clockdata_init).2.error_bound_ns = 0 ∨
          (fbclock_clockdata_load_data obs fbclock_clockdata_init).2.ingress_time_ns = 0) →
        ¬((fbclock_clockdata_load_data obs fbclock_clockdata_init).2.error_bound_ns = UINT32_MAX ∨
          (fbclock_clockdata_load_data obs fbclock_clockdata_init).2.holdover_multiplier_ns = UINT32_MAX) →
        (fbclock_clockdata_load_data obs fbclock_clockdata_init).2.ingress_time_ns > r.ts →
        (fbclock_gettime_tz obs res min0 tt0 std).1 = FBCLOCK_E_PHC_IN_THE_PAST ∧
        (fbclock_gettime_tz obs res min0 tt0 std).2.1 = tt0) := by
  intro obs res min0 tt0 std
  have hcode : (fbclock_clockdata_load_data obs fbclock_clockdata_init).1 =
      FBCLOCK_E_NO_ERROR :=
    fbclock_load_loop_code obs FBCLOCK_MAX_READ_TRIES 0 fbclock_clockdata_init
  refine ⟨?_, ?_, ?_⟩
  · intro hz
    simp only [fbclock_gettime_tz, hcode]
    rw [if_neg (by simp), if_pos hz]
  · intro hnz hs
    simp only [fbclock_gettime_tz, hcode]
    rw [if_neg (by simp), if_neg hnz, if_pos hs]
  · intro r hres hnz hns hpast
    subst hres
    simp only [fbclock_gettime_tz, hcode]
    rw [if_neg (by simp), if_neg hnz, if_neg hns]
    simp only [fbclock_calculate_time]
    rw [if_pos hpast]
    exact ⟨rfl, rfl⟩

/-- An observation schedule publishing a payload with `error_bound_ns = 0`:
used to witness C4. -/
def fbclock_C4_obs : ℕ → fbclock_clockdata × ℕ :=
  fun _ => (⟨5, 0, 3, 0, 0, 0, 0⟩, fbclock_clockdata_crc ⟨5, 0, 3, 0, 0, 0, 0⟩)

/-- Witness for C4: a zero `error_bound_ns` yields `FBCLOCK_E_NO_DATA` and an
untouched buffer. -/
theorem fbclock_C4_witness :
    fbclock_gettime_tz fbclock_C4_obs none 11 ⟨1, 2⟩ FBCLOCK_TAI =
      (FBCLOCK_E_NO_DATA, ⟨1, 2⟩, 11) :=
  (fbclock_C4 fbclock_C4_obs none 11 ⟨1, 2⟩ FBCLOCK_TAI).1 (by decide)

/-- C9: on the v2 path, a successfully loaded payload with `phc_time_ns = 0`
or `sysclock_time_ns = 0` makes `gettime` return `FBCLOCK_E_NO_DATA`,
regardless of the remaining fields. -/
theorem fbclock_C9 :
    ∀ (obs : ℕ → ℕ × fbclock_clockdata_v2 × ℕ) (snow : Option ℤ)
      (tt0 : fbclock_truetime) (std : ℤ),
      (fbclock_clockdata_load_data_v2 obs fbclock_clockdata_v2_init).1 =
        FBCLOCK_E_NO_ERROR →
      ((fbclock_clockdata_load_data_v2 obs fbclock_clockdata_v2_init).2.phc_time_ns = 0 ∨
        (fbclock_clockdata_load_data_v2 obs fbclock_clockdata_v2_init).2.sysclock_time_ns = 0) →
      fbclock_gettime_tz_v2 obs snow tt0 std = (FBCLOCK_E_NO_DATA, tt0) := by
  intro obs snow tt0 std hcode hzero
  simp only [fbclock_gettime_tz_v2, hcode]
  rw [if_neg (by simp)]
  by_cases hz : (fbclock_clockdata_load_data_v2 obs fbclock_clockdata_v2_init).2.error_bound_ns = 0 ∨
      (fbclock_clockdata_load_data_v2 obs fbclock_clockdata_v2_init).2.ingress_time_ns = 0
  · rw [if_pos hz]
  · rw [if_neg hz, if_pos hzero]

/-- An observation schedule publishing a v2 payload with `phc_time_ns = 0` but
nonzero `error_bound_ns`, `ingress_time_ns`, `sysclock_time_ns`: used to
witness C9. -/
def fbclock_C9_obs : ℕ → ℕ × fbclock_clockdata_v2 × ℕ :=
  fun _ => (4, ⟨3, 6, 9, 0, 0, 0, 0, 0, 7, 0⟩, 4)

/-- Witness for C9: `phc_time_ns = 0` alone forces `FBCLOCK_E_NO_DATA`. -/
theorem fbclock_C9_witness :
    fbclock_gettime_tz_v2 fbclock_C9_obs (some 100) ⟨1, 2⟩ FBCLOCK_TAI =
      (FBCLOCK_E_NO_DATA, ⟨1, 2⟩) :=
  fbclock_C9 fbclock_C9_obs (some 100) ⟨1, 2⟩ FBCLOCK_TAI (by decide) (by decide)

/-! ### Claim C1: the error bound actually used by gettime -/

/-- The v2 payload used by the C1 counterexample: valid fields, zero elapsed
time, zero holdover. -/
def fbclock_C1_state : fbclock_clockdata_v2 :=
  ⟨1, 100, 0, 0, 0, 0, 0, 1, 1, 0⟩

/-- Constant coherent observation schedule publishing `fbclock_C1_state`. -/
def fbclock_C1_obs : ℕ → ℕ × fbclock_clockdata_v2 × ℕ :=
  fun _ => (2, fbclock_C1_state, 2)

lemma fbclock_C1_wou (eb : ℕ) (hlt : eb < UINT64_MOD) :
    fbclock_window_of_uncertainty (fbclock_seconds_v2 fbclock_C1_state) eb
      ((fbclock_C1_state.holdover_multiplier_ns : ℚ) / FBCLOCK_POW2_16) = eb := by
  have hs : fbclock_seconds_v2 fbclock_C1_state = 0 := by
    norm_num [fbclock_seconds_v2, fbclock_C1_state, NANOSECONDS_IN_SECONDS]
  have hh : ((fbclock_C1_state.holdover_multiplier_ns : ℚ) / FBCLOCK_POW2_16) = 0 := by
    norm_num [fbclock_C1_state, FBCLOCK_POW2_16]
  rw [hs, hh]
  unfold fbclock_window_of_uncertainty ratTrunc
  rw [if_pos (by norm_num)]
  have hz : u64 ⌊(0 : ℚ) * 0⌋ = 0 := by norm_num [u64]
  rw [hz]
  dsimp only
  rw [Nat.add_zero]
  exact Nat.mod_eq_of_lt hlt

/-- C1 (counterexample): a successful v2 `gettime` whose result differs from
what `fbclock_calculate_time_v2` would produce with the claimed error bound
`error_bound_ns + min_phc_delay` for a handle with `min_phc_delay = 50`:
the v2 path does not add the sampling delay. -/
theorem fbclock_C1_counterexample :
    (fbclock_gettime_tz_v2 fbclock_C1_obs (some 1) ⟨0, 0⟩ FBCLOCK_TAI).1 =
      FBCLOCK_E_NO_ERROR ∧
    (fbclock_gettime_tz_v2 fbclock_C1_obs (some 1) ⟨0, 0⟩ FBCLOCK_TAI).2 ≠
      (fbclock_calculate_time_v2
        (u64 ((fbclock_C1_state.error_bound_ns : ℤ) + 50))
        ((fbclock_C1_state.holdover_multiplier_ns : ℚ) / FBCLOCK_POW2_16)
        fbclock_C1_state 1 ⟨0, 0⟩ FBCLOCK_TAI).2 := by
  have hload : fbclock_clockdata_load_data_v2 fbclock_C1_obs fbclock_clockdata_v2_init =
      (FBCLOCK_E_NO_ERROR, fbclock_C1_state) := by decide
  have hget : fbclock_gettime_tz_v2 fbclock_C1_obs (some 1) ⟨0, 0⟩ FBCLOCK_TAI =
      (FBCLOCK_E_NO_ERROR, ⟨18446744073709551517, 101⟩) := by
    simp only [fbclock_gettime_tz_v2, hload]
    rw [if_neg (by decide), if_neg (by decide), if_neg (by decide), if_neg (by decide)]
    simp only [fbclock_calculate_time_v2]
    rw [if_neg (by decide),
      fbclock_C1_wou (fbclock_C1_state.error_bound_ns) (by decide)]
    decide
  have hclaim : (fbclock_calculate_time_v2
      (u64 ((fbclock_C1_state.error_bound_ns : ℤ) + 50))
      ((fbclock_C1_state.holdover_multiplier_ns : ℚ) / FBCLOCK_POW2_16)
      fbclock_C1_state 1 ⟨0, 0⟩ FBCLOCK_TAI) =
      (FBCLOCK_E_NO_ERROR, ⟨18446744073709551467, 151⟩) := by
    simp only [fbclock_calculate_time_v2]
    rw [if_neg (by decide),
      fbclock_C1_wou (u64 ((fbclock_C1_state.error_bound_ns : ℤ) + 50)) (u64_lt _)]
    decide
  rw [hget, hclaim]
  exact ⟨rfl, by decide⟩

/-- C1 (amended): on every successful v1 `gettime` the error bound fed to the
TrueTime assembler is the published `error_bound_ns` plus the handle's updated
running-minimum PHC sampling delay; on the v2 path no sampling delay is added —
the published `error_bound_ns` is used alone. -/
theorem fbclock_C1_amended :
    (∀ (obs : ℕ → fbclock_clockdata × ℕ) (r : phc_time_res) (min0 : ℤ)
        (tt0 : fbclock_truetime) (std : ℤ),
      (fbclock_gettime_tz obs (some r) min0 tt0 std).1 = FBCLOCK_E_NO_ERROR →
      (fbclock_gettime_tz obs (some r) min0 tt0 std).2.2 =
          (if r.delay < min0 then r.delay else min0) ∧
      (fbclock_gettime_tz obs (some r) min0 tt0 std).2.1 =
        (fbclock_calculate_time
          (u64 (((fbclock_clockdata_load_data obs fbclock_clockdata_init).2.error_bound_ns : ℤ) +
            (if r.delay < min0 then r.delay else min0)))
          (((fbclock_clockdata_load_data obs fbclock_clockdata_init).2.holdover_multiplier_ns : ℚ) /
            FBCLOCK_POW2_16)
          (fbclock_clockdata_load_data obs fbclock_clockdata_init).2 r.ts tt0 std).2) ∧
    (∀ (obs : ℕ → ℕ × fbclock_clockdata_v2 × ℕ) (now : ℤ)
        (tt0 : fbclock_truetime) (std : ℤ),
      (fbclock_gettime_tz_v2 obs (some now) tt0 std).1 = FBCLOCK_E_NO_ERROR →
      (fbclock_gettime_tz_v2 obs (some now) tt0 std).2 =
        (fbclock_calculate_time_v2
          (fbclock_clockdata_load_data_v2 obs fbclock_clockdata_v2_init).2.error_bound_ns
          (((fbclock_clockdata_load_data_v2 obs fbclock_clockdata_v2_init).2.holdover_multiplier_ns : ℚ) /
            FBCLOCK_POW2_16)
          (fbclock_clockdata_load_data_v2 obs fbclock_clockdata_v2_init).2 now tt0 std).2) := by
  constructor
  · intro obs r min0 tt0 std hsucc
    have hcode : (fbclock_clockdata_load_data obs fbclock_clockdata_init).1 =
        FBCLOCK_E_NO_ERROR :=
      fbclock_load_loop_code obs FBCLOCK_MAX_READ_TRIES 0 fbclock_clockdata_init
    simp only [fbclock_gettime_tz, hcode] at hsucc ⊢
    rw [if_neg (by simp)] at hsucc ⊢
    by_cases h1 : (fbclock_clockdata_load_data obs fbclock_clockdata_init).2.error_bound_ns = 0 ∨
        (fbclock_clockdata_load_data obs fbclock_clockdata_init).2.ingress_time_ns = 0
    · rw [if_pos h1] at hsucc
      exact absurd hsucc (by norm_num [FBCLOCK_E_NO_DATA, FBCLOCK_E_NO_ERROR])
    · rw [if_neg h1] at hsucc ⊢
      by_cases h2 : (fbclock_clockdata_load_data obs fbclock_clockdata_init).2.error_bound_ns = UINT32_MAX ∨
          (fbclock_clockdata_load_data obs fbclock_clockdata_init).2.holdover_multiplier_ns = UINT32_MAX
      · rw [if_pos h2] at hsucc
        exact absurd hsucc (by norm_num [FBCLOCK_E_WOU_TOO_BIG, FBCLOCK_E_NO_ERROR])
      · rw [if_neg h2] at hsucc ⊢
        exact ⟨rfl, rfl⟩
  · intro obs now tt0 std hsucc
    by_cases hcode : (fbclock_clockdata_load_data_v2 obs fbclock_clockdata_v2_init).1 ≠
        FBCLOCK_E_NO_ERROR
    · simp only [fbclock_gettime_tz_v2] at hsucc
      rw [if_pos hcode] at hsucc
      exact absurd hsucc hcode
    · simp only [fbclock_gettime_tz_v2] at hsucc ⊢
      rw [if_neg hcode] at hsucc ⊢
      by_cases h1 : (fbclock_clockdata_load_data_v2 obs fbclock_clockdata_v2_init).2.error_bound_ns = 0 ∨
          (fbclock_clockdata_load_data_v2 obs fbclock_clockdata_v2_init).2.ingress_time_ns = 0
      · rw [if_pos h1] at hsucc
        exact absurd hsucc (by norm_num [FBCLOCK_E_NO_DATA, FBCLOCK_E_NO_ERROR])
      · rw [if_neg h1] at hsucc ⊢
        by_cases h2 : (fbclock_clockdata_load_data_v2 obs fbclock_clockdata_v2_init).2.phc_time_ns = 0 ∨
            (fbclock_clockdata_load_data_v2 obs fbclock_clockdata_v2_init).2.sysclock_time_ns = 0
        · rw [if_pos h2] at hsucc
          exact absurd hsucc (by norm_num [FBCLOCK_E_NO_DATA, FBCLOCK_E_NO_ERROR])
        · rw [if_neg h2] at hsucc ⊢
          by_cases h3 : (fbclock_clockdata_load_data_v2 obs fbclock_clockdata_v2_init).2.error_bound_ns = UINT32_MAX ∨
              (fbclock_clockdata_load_data_v2 obs fbclock_clockdata_v2_init).2.holdover_multiplier_ns = UINT32_MAX
          · rw [if_pos h3] at hsucc
            exact absurd hsucc (by norm_num [FBCLOCK_E_WOU_TOO_BIG, FBCLOCK_E_NO_ERROR])
          · rw [if_neg h3] at hsucc ⊢

/-- The v1 payload used by the C1 witness. -/
def fbclock_C1_wstate : fbclock_clockdata :=
  ⟨9, 100, 0, 0, 0, 0, 0⟩

/-- Constant matching observation schedule publishing `fbclock_C1_wstate`. -/
def fbclock_C1_wobs : ℕ → fbclock_clockdata × ℕ :=
  fun _ => (fbclock_C1_wstate, fbclock_clockdata_crc fbclock_C1_wstate)

/-- Witness for C1 (amended): a concrete successful v1 call with observed
delay 7 below the stored minimum 50. -/
theorem fbclock_C1_amended_witness :
    (fbclock_gettime_tz fbclock_C1_wobs (some ⟨20, 7⟩) 50 ⟨0, 0⟩ FBCLOCK_TAI).2.2 =
        (if (7 : ℤ) < 50 then (7 : ℤ) else 50) ∧
    (fbclock_gettime_tz fbclock_C1_wobs (some ⟨20, 7⟩) 50 ⟨0, 0⟩ FBCLOCK_TAI).2.1 =
      (fbclock_calculate_time
        (u64 (((fbclock_clockdata_load_data fbclock_C1_wobs fbclock_clockdata_init).2.error_bound_ns : ℤ) +
          (if (7 : ℤ) < 50 then (7 : ℤ) else 50)))
        (((fbclock_clockdata_load_data fbclock_C1_wobs fbclock_clockdata_init).2.holdover_multiplier_ns : ℚ) /
          FBCLOCK_POW2_16)
        (fbclock_clockdata_load_data fbclock_C1_wobs fbclock_clockdata_init).2
        20 ⟨0, 0⟩ FBCLOCK_TAI).2 :=
  fbclock_C1_amended.1 fbclock_C1_wobs ⟨20, 7⟩ 50 ⟨0, 0⟩ FBCLOCK_TAI (by decide)

/-! ### Claim C2: earliest ≤ latest -/

/-- The v1 payload used by the C2 counterexample: all validated fields nonzero
and below the sentinel, but a tiny PHC time, so `phctime - wou` wraps. -/
def fbclock_C2_state : fbclock_clockdata :=
  ⟨1, 100, 1, 0, 0, 0, 0⟩

lemma fbclock_C2_wou :
    fbclock_window_of_uncertainty (fbclock_seconds fbclock_C2_state 2) 100
      ((fbclock_C2_state.holdover_multiplier_ns : ℚ) / FBCLOCK_POW2_16) = 100 := by
  have hs : fbclock_seconds fbclock_C2_state 2 = 1 / 1000000000 := by
    norm_num [fbclock_seconds, fbclock_C2_state, NANOSECONDS_IN_SECONDS]
  have hh : ((fbclock_C2_state.holdover_multiplier_ns : ℚ) / FBCLOCK_POW2_16) =
      1 / 65536 := by
    norm_num [fbclock_C2_state, FBCLOCK_POW2_16]
  rw [hs, hh]
  unfold fbclock_window_of_uncertainty ratTrunc
  rw [if_pos (by norm_num)]
  have hf : ⌊(1 / 65536 : ℚ) * (1 / 1000000000)⌋ = 0 :=
    Int.floor_eq_zero_iff.mpr ⟨by norm_num, by norm_num⟩
  rw [hf]
  have hz : u64 0 = 0 := by norm_num [u64]
  rw [hz]
  dsimp only
  rw [Nat.add_zero]
  exact Nat.mod_eq_of_lt (by norm_num [UINT64_MOD])

/-- C2 (counterexample): an input satisfying all the validation preconditions
(`ingress ≤ phc`, `error_bound_ns` and `ingress_time_ns` and
`holdover_multiplier_ns` nonzero and below `UINT32_MAX`) on which
`fbclock_calculate_time` succeeds yet produces `earliest_ns > latest_ns`,
because `phctime_ns - wou_ns` wraps around in `uint64_t`. -/
theorem fbclock_C2_counterexample :
    (fbclock_calculate_time 100
      ((fbclock_C2_state.holdover_multiplier_ns : ℚ) / FBCLOCK_POW2_16)
      fbclock_C2_state 2 ⟨0, 0⟩ FBCLOCK_TAI).1 = FBCLOCK_E_NO_ERROR ∧
    fbclock_C2_state.ingress_time_ns ≤ 2 ∧
    fbclock_C2_state.error_bound_ns ≠ 0 ∧
    fbclock_C2_state.ingress_time_ns ≠ 0 ∧
    fbclock_C2_state.holdover_multiplier_ns ≠ 0 ∧
    fbclock_C2_state.error_bound_ns ≠ UINT32_MAX ∧
    fbclock_C2_state.holdover_multiplier_ns ≠ UINT32_MAX ∧
    ¬((fbclock_calculate_time 100
        ((fbclock_C2_state.holdover_multiplier_ns : ℚ) / FBCLOCK_POW2_16)
        fbclock_C2_state 2 ⟨0, 0⟩ FBCLOCK_TAI).2.earliest_ns ≤
      (fbclock_calculate_time 100
        ((fbclock_C2_state.holdover_multiplier_ns : ℚ) / FBCLOCK_POW2_16)
        fbclock_C2_state 2 ⟨0, 0⟩ FBCLOCK_TAI).2.latest_ns) := by
  have hpair : fbclock_calculate_time 100
      ((fbclock_C2_state.holdover_multiplier_ns : ℚ) / FBCLOCK_POW2_16)
      fbclock_C2_state 2 ⟨0, 0⟩ FBCLOCK_TAI =
      (FBCLOCK_E_NO_ERROR, ⟨18446744073709551518, 102⟩) := by
    simp only [fbclock_calculate_time]
    rw [if_neg (by decide), fbclock_C2_wou]
    decide
  rw [hpair]
  refine ⟨rfl, by decide, by decide, by decide, by decide, by decide, by decide, by decide⟩

/-- C2 (amended): both TrueTime assemblers, on success, produce
`earliest_ns ≤ latest_ns` provided additionally the window of uncertainty does
not exceed the (possibly UTC-adjusted, v2: extrapolated) center and
`center + wou` does not overflow `uint64_t` — without these the `uint64_t`
subtraction/addition wraps. -/
theorem fbclock_C2_amended :
    (∀ (eb : ℕ) (h : ℚ) (state : fbclock_clockdata) (phc : ℤ)
        (tt0 : fbclock_truetime) (std : ℤ),
      state.ingress_time_ns ≤ phc →
      fbclock_window_of_uncertainty (fbclock_seconds state phc) eb h ≤
        fbclock_center state phc std →
      fbclock_center state phc std +
        fbclock_window_of_uncertainty (fbclock_seconds state phc) eb h < UINT64_MOD →
      (fbclock_calculate_time eb h state phc tt0 std).1 = FBCLOCK_E_NO_ERROR ∧
      (fbclock_calculate_time eb h state phc tt0 std).2.earliest_ns ≤
        (fbclock_calculate_time eb h state phc tt0 std).2.latest_ns) ∧
    (∀ (eb : ℕ) (h : ℚ) (state : fbclock_clockdata_v2) (sysnow : ℤ)
        (tt0 : fbclock_truetime) (std : ℤ),
      state.ingress_time_ns ≤ state.phc_time_ns →
      fbclock_window_of_uncertainty (fbclock_seconds_v2 state) eb h ≤
        fbclock_center_v2 state sysnow std →
      fbclock_center_v2 state sysnow std +
        fbclock_window_of_uncertainty (fbclock_seconds_v2 state) eb h < UINT64_MOD →
      (fbclock_calculate_time_v2 eb h state sysnow tt0 std).1 = FBCLOCK_E_NO_ERROR ∧
      (fbclock_calculate_time_v2 eb h state sysnow tt0 std).2.earliest_ns ≤
        (fbclock_calculate_time_v2 eb h state sysnow tt0 std).2.latest_ns) := by
  constructor
  · intro eb h state phc tt0 std h1 h2 h3
    have hng : ¬(state.ingress_time_ns > phc) := not_lt.mpr h1
    simp only [fbclock_calculate_time]
    rw [if_neg hng]
    refine ⟨rfl, ?_⟩
    dsimp only
    have h2' : ((fbclock_window_of_uncertainty (fbclock_seconds state phc) eb h : ℕ) : ℤ) ≤
        ((fbclock_center state phc std : ℕ) : ℤ) := by exact_mod_cast h2
    have h3' : ((fbclock_center state phc std : ℕ) : ℤ) +
        ((fbclock_window_of_uncertainty (fbclock_seconds state phc) eb h : ℕ) : ℤ) <
        ((UINT64_MOD : ℕ) : ℤ) := by exact_mod_cast h3
    rw [u64_small (by omega) (by omega), u64_small (by omega) (by omega)]
    omega
  · intro eb h state sysnow tt0 std h1 h2 h3
    have hng : ¬(state.ingress_time_ns > state.phc_time_ns) := not_lt.mpr h1
    simp only [fbclock_calculate_time_v2]
    rw [if_neg hng]
    refine ⟨rfl, ?_⟩
    dsimp only
    have h2' : ((fbclock_window_of_uncertainty (fbclock_seconds_v2 state) eb h : ℕ) : ℤ) ≤
        ((fbclock_center_v2 state sysnow std : ℕ) : ℤ) := by exact_mod_cast h2
    have h3' : ((fbclock_center_v2 state sysnow std : ℕ) : ℤ) +
        ((fbclock_window_of_uncertainty (fbclock_seconds_v2 state) eb h : ℕ) : ℤ) <
        ((UINT64_MOD : ℕ) : ℤ) := by exact_mod_cast h3
    rw [u64_small (by omega) (by omega), u64_small (by omega) (by omega)]
    omega

/-- The v1 payload used by the C2 witness: elapsed time exactly 65536 seconds,
holdover multiplier 1, so the holdover term is exactly 1 ns. -/
def fbclock_C2_wstate : fbclock_clockdata :=
  ⟨1, 100, 1, 0, 0, 0, 0⟩

lemma fbclock_C2_wwou :
    fbclock_window_of_uncertainty (fbclock_seconds fbclock_C2_wstate 65536000000001) 100
      ((fbclock_C2_wstate.holdover_multiplier_ns : ℚ) / FBCLOCK_POW2_16) = 101 := by
  have hs : fbclock_seconds fbclock_C2_wstate 65536000000001 = 65536 := by
    norm_num [fbclock_seconds, fbclock_C2_wstate, NANOSECONDS_IN_SECONDS]
  have hh : ((fbclock_C2_wstate.holdover_multiplier_ns : ℚ) / FBCLOCK_POW2_16) =
      1 / 65536 := by
    norm_num [fbclock_C2_wstate, FBCLOCK_POW2_16]
  rw [hs, hh]
  unfold fbclock_window_of_uncertainty ratTrunc
  rw [if_pos (by norm_num)]
  have hf : ⌊(1 / 65536 : ℚ) * 65536⌋ = 1 := by norm_num
  rw [hf]
  have hz : u64 1 = 1 := by norm_num [u64, UINT64_MOD]
  rw [hz]
  dsimp only
  exact Nat.mod_eq_of_lt (by norm_num [UINT64_MOD])

/-- Witness for C2 (amended): a concrete in-range v1 computation with a
nontrivial holdover term. -/
theorem fbclock_C2_amended_witness :
    (fbclock_calculate_time 100
      ((fbclock_C2_wstate.holdover_multiplier_ns : ℚ) / FBCLOCK_POW2_16)
      fbclock_C2_wstate 65536000000001 ⟨0, 0⟩ FBCLOCK_TAI).1 = FBCLOCK_E_NO_ERROR ∧
    (fbclock_calculate_time 100
      ((fbclock_C2_wstate.holdover_multiplier_ns : ℚ) / FBCLOCK_POW2_16)
      fbclock_C2_wstate 65536000000001 ⟨0, 0⟩ FBCLOCK_TAI).2.earliest_ns ≤
    (fbclock_calculate_time 100
      ((fbclock_C2_wstate.holdover_multiplier_ns : ℚ) / FBCLOCK_POW2_16)
      fbclock_C2_wstate 65536000000001 ⟨0, 0⟩ FBCLOCK_TAI).2.latest_ns :=
  fbclock_C2_amended.1 100
    ((fbclock_C2_wstate.holdover_multiplier_ns : ℚ) / FBCLOCK_POW2_16)
    fbclock_C2_wstate 65536000000001 ⟨0, 0⟩ FBCLOCK_TAI (by decide)
    (by rw [fbclock_C2_wwou]; decide) (by rw [fbclock_C2_wwou]; decide)
